import Mathlib

/-!
Shallow embedding of `src/main.py` (Catalyst Center interface-utilization
report tool).

The network is modelled by an `Oracle`: for each of the four REST calls the
oracle either fails at the transport level (modelling
`requests.exceptions.RequestException`, raised by `requests.get`/`post` or
`raise_for_status`) or returns the parsed JSON body (`response.json()`).
The pure JSON-handling parts of the four client functions are separate
definitions (`tokenParse`, `deviceParse`, `ifaceParse`, `utilParse`) so that
their behaviour on individual bodies can be stated directly; the composite
client functions (`get_token`, `get_device_id`, `get_interface_id_and_status`,
`get_interface_utilization`) chain transport and parsing exactly as the
source does.

Python exceptions relevant to the embedded fragment are `PyExc`; Python
truthiness (`if not x`) on JSON values is `truthy`.  The orchestrator `main`
is embedded as `runMain`: it returns the rows appended to the report (in
order), the trace of REST calls made (in order), and the exception, if any,
that escaped the per-group/per-device handlers to `main`'s own top-level
`except` clauses.  Configuration entries are modelled with the shape the
YAML schema prescribes; fields the source reads with `dict.get` (and which
may therefore be absent) are `Option`s.
-/

/-- JSON values as produced by `response.json()` / `yaml.safe_load`.
Numbers are modelled as integers: no claim computes with them, they only
pass through opaquely. -/
inductive Json where
  | null
  | bool (b : Bool)
  | num (n : Int)
  | str (s : String)
  | arr (elems : List Json)
  | obj (fields : List (String × Json))

/-- Python truthiness of a JSON value (`if not x` branches on this). -/
def truthy : Json → Bool
  | .null => false
  | .bool b => b
  | .num n => n != 0
  | .str s => !s.isEmpty
  | .arr l => !l.isEmpty
  | .obj f => !f.isEmpty

/-- Truthiness of `dict.get(k)`: `None` is falsy. -/
def truthyOpt : Option Json → Bool
  | none => false
  | some j => truthy j

/-- Python exceptions that the embedded fragment can raise. -/
inductive PyExc where
  | requestException (msg : String)
  | keyError (key : String)
  | attributeError
  | typeError
  deriving DecidableEq

/-- Text of an exception as interpolated into `f"... {e}"` strings. -/
def excText : PyExc → String
  | .requestException m => m
  | .keyError k => "KeyError: " ++ k
  | .attributeError => "AttributeError"
  | .typeError => "TypeError"

/-- Substring test, modelling Python `pat in s` for strings. -/
def strContains (hay pat : String) : Bool :=
  (hay.splitOn pat).length ≥ 2

/-- Membership test `"response" in data` for a Python list: string equality
holds only against string elements. -/
def isResponseStr : Json → Bool
  | .str s => s == "response"
  | _ => false

/-- Body handling of `get_token` (main.py line 37): `response.json()['Token']`.
Indexing a non-dict raises `TypeError`; a dict without the key raises
`KeyError('Token')`. -/
def tokenParse : Json → Except PyExc Json
  | .obj fields =>
      match fields.lookup "Token" with
      | some v => .ok v
      | none => .error (.keyError "Token")
  | _ => .error .typeError

/-- Model of `str.lower()` (character-wise lowering; hostnames are ASCII,
where this matches Python). -/
def pyLower (s : String) : String :=
  ⟨s.data.map Char.toLower⟩

/-- Loop of `get_device_id` (main.py lines 46-49) over the elements of the
`response` list: `device.get('hostname', '').lower() == device_name.lower()`.
A non-dict element has no `.get` (`AttributeError`); a non-string hostname
has no `.lower()` (`AttributeError`). -/
def findDevice (deviceName : String) : List Json → Except PyExc (Option Json)
  | [] => .ok none
  | d :: rest =>
      match d with
      | .obj df =>
          match (df.lookup "hostname").getD (Json.str "") with
          | .str h =>
              if pyLower h == pyLower deviceName then .ok (df.lookup "id")
              else findDevice deviceName rest
          | _ => .error .attributeError
      | _ => .error .attributeError

/-- Body handling of `get_device_id` (main.py lines 45-49):
`response.json().get('response', [])` then iteration.  Iterating a dict
yields its keys (strings, which have no `.get`); iterating a string yields
characters; iterating anything non-iterable raises `TypeError`. -/
def deviceParse (deviceName : String) : Json → Except PyExc (Option Json)
  | .obj fields =>
      match (fields.lookup "response").getD (Json.arr []) with
      | .arr ds => findDevice deviceName ds
      | .obj f2 => if f2.isEmpty then .ok none else .error .attributeError
      | .str s => if s.isEmpty then .ok none else .error .attributeError
      | _ => .error .typeError
  | _ => .error .attributeError

/-- Body handling of `get_interface_id_and_status` (main.py lines 64-65):
`iface = response.json().get('response', [])` then
`iface.get('instanceUuid'), iface.get('status')`.  The default `[]` (and any
other non-dict value of the `response` field) has no `.get` and raises
`AttributeError`. -/
def ifaceParse : Json → Except PyExc (Option Json × Option Json)
  | .obj fields =>
      match (fields.lookup "response").getD (Json.arr []) with
      | .obj ifl => .ok (ifl.lookup "instanceUuid", ifl.lookup "status")
      | _ => .error .attributeError
  | _ => .error .attributeError

/-- Body handling of `get_interface_utilization` (main.py lines 80-89):
utilization fields are read only when `'response' in data`, the field is a
dict and it is non-empty; otherwise both results stay `None`. -/
def utilParse : Json → Except PyExc (Option Json × Option Json)
  | .obj fields =>
      match fields.lookup "response" with
      | some (.obj sf) =>
          if sf.isEmpty then .ok (none, none)
          else .ok (sf.lookup "txUtilization", sf.lookup "rxUtilization")
      | _ => .ok (none, none)
  | .arr elems =>
      if elems.any isResponseStr then .error .attributeError
      else .ok (none, none)
  | .str s =>
      if strContains s "response" then .error .attributeError
      else .ok (none, none)
  | _ => .error .typeError

/-- Environment model: each REST endpoint either fails at the transport
level (`RequestException` with a message) or yields a parsed JSON body.
Arguments mirror what the source puts into the URL/headers of each call. -/
structure Oracle where
  authResp : String → String → String → Except String Json
  deviceResp : Json → String → Except String Json
  interfaceResp : Json → String → Json → String → Except String Json
  utilResp : Json → String → Json → Except String Json

/-- `get_token` (main.py lines 32-37): POST then `raise_for_status` then
token extraction. -/
def get_token (o : Oracle) (ip username password : String) : Except PyExc Json :=
  match o.authResp ip username password with
  | .error m => .error (.requestException m)
  | .ok body => tokenParse body

/-- `get_device_id` (main.py lines 39-49): GET the full inventory then a
case-insensitive hostname match. -/
def get_device_id (o : Oracle) (token : Json) (ip deviceName : String) :
    Except PyExc (Option Json) :=
  match o.deviceResp token ip with
  | .error m => .error (.requestException m)
  | .ok body => deviceParse deviceName body

/-- `get_interface_id_and_status` (main.py lines 51-65). -/
def get_interface_id_and_status (o : Oracle) (token : Json) (ip : String)
    (deviceId : Json) (interfaceName : String) :
    Except PyExc (Option Json × Option Json) :=
  match o.interfaceResp token ip deviceId interfaceName with
  | .error m => .error (.requestException m)
  | .ok body => ifaceParse body

/-- `get_interface_utilization` (main.py lines 68-89). -/
def get_interface_utilization (o : Oracle) (token : Json) (ip : String)
    (interfaceId : Json) : Except PyExc (Option Json × Option Json) :=
  match o.utilResp token ip interfaceId with
  | .error m => .error (.requestException m)
  | .ok body => utilParse body

/-- One cell of an appended Excel row: a Python value, either `None`
(an empty cell) or a JSON value (strings for the fixed texts). -/
abbrev Cell := Option Json

/-- One row appended by `append_to_excel_report`, in the six-column layout
of `excel_data` (main.py lines 96, 186, 205, 224, 242, 254). -/
structure Row where
  dnaCenter : Cell
  deviceName : Cell
  interfaceName : Cell
  status : Cell
  tx : Cell
  rx : Cell

/-- The row logged when a device lookup finds no match (main.py 186-193). -/
def deviceNotFoundRow (dc dev : String) : Row :=
  ⟨some (.str dc), some (.str dev), some (.str "N/A"),
   some (.str "Device Not Found"), some (.str "N/A"), some (.str "N/A")⟩

/-- The row logged when an interface lookup yields a falsy id
(main.py 205-212). -/
def ifaceNotFoundRow (dc dev ifn : String) : Row :=
  ⟨some (.str dc), some (.str dev), some (.str ifn),
   some (.str "Interface Not Found"), some (.str "N/A"), some (.str "N/A")⟩

/-- The normal data row (main.py 224-231). -/
def dataRow (dc dev ifn : String) (st tx rx : Cell) : Row :=
  ⟨some (.str dc), some (.str dev), some (.str ifn), st, tx, rx⟩

/-- Status text of the two device-level `except` clauses (main.py 246, 258):
`RequestException` goes to the API-error handler, every other exception to
the generic one. -/
def excStatus : PyExc → String
  | .requestException m => "API Error: " ++ m
  | e => "Unexpected Error: " ++ excText e

/-- The row logged by the device-level exception handlers (main.py 242-249
and 254-261). -/
def deviceErrRow (dc dev : String) (e : PyExc) : Row :=
  ⟨some (.str dc), some (.str dev), some (.str "N/A"),
   some (.str (excStatus e)), some (.str "N/A"), some (.str "N/A")⟩

/-- One REST call made during the run, with the arguments the source passes
(the token goes into the request headers). -/
inductive Event where
  | authCall (ip username password : String)
  | deviceCall (ip : String) (token : Json) (deviceName : String)
  | ifaceCall (ip : String) (token deviceId : Json) (interfaceName : String)
  | utilCall (ip : String) (token interfaceId : Json)

/-- Whether an event is an authentication request. -/
def isAuthEvent : Event → Bool
  | .authCall .. => true
  | _ => false

/-- The token an event carried in its headers (`none` for the basic-auth
token request itself). -/
def eventToken : Event → Option Json
  | .authCall .. => none
  | .deviceCall _ t _ => some t
  | .ifaceCall _ t _ _ => some t
  | .utilCall _ t _ => some t

/-- Events and rows produced by a fragment of the run that lets no
exception escape. -/
structure Out2 where
  events : List Event
  rows : List Row

/-- Events and rows produced by a fragment that may let an exception
escape to an enclosing handler (rows already appended persist). -/
structure Out3 where
  events : List Event
  rows : List Row
  exc : Option PyExc

/-- Processing of one interface name (main.py lines 200-234, the body of the
interface loop): resolve id/status, emit a not-found row on a falsy id, else
fetch utilization and emit the data row.  Exceptions propagate to the
device-level handlers. -/
def ifaceOutcome (o : Oracle) (ip : String) (token deviceId : Json)
    (dcName devName ifaceName : String) : Out3 :=
  let callEvt := Event.ifaceCall ip token deviceId ifaceName
  match get_interface_id_and_status o token ip deviceId ifaceName with
  | .error e => ⟨[callEvt], [], some e⟩
  | .ok (idOpt, statusOpt) =>
      match idOpt with
      | none => ⟨[callEvt], [ifaceNotFoundRow dcName devName ifaceName], none⟩
      | some idv =>
          if truthy idv then
            let utilEvt := Event.utilCall ip token idv
            match get_interface_utilization o token ip idv with
            | .error e => ⟨[callEvt, utilEvt], [], some e⟩
            | .ok (tx, rx) =>
                ⟨[callEvt, utilEvt],
                 [dataRow dcName devName ifaceName statusOpt tx rx], none⟩
          else ⟨[callEvt], [ifaceNotFoundRow dcName devName ifaceName], none⟩

/-- The interface loop (main.py lines 199-234) under the device-level `try`:
the first exception is converted into a single error row for the device and
the remaining interfaces are not processed. -/
def ifacesLoop (o : Oracle) (ip : String) (token deviceId : Json)
    (dcName devName : String) : List String → Out2
  | [] => ⟨[], []⟩
  | n :: rest =>
      let r := ifaceOutcome o ip token deviceId dcName devName n
      match r.exc with
      | some e => ⟨r.events, r.rows ++ [deviceErrRow dcName devName e]⟩
      | none =>
          let r2 := ifacesLoop o ip token deviceId dcName devName rest
          ⟨r.events ++ r2.events, r.rows ++ r2.rows⟩

/-- One device entry of a target group: both fields are read with
`dict.get` in the source, `interfaces` with no default (main.py 172-173). -/
structure DeviceEntry where
  device_name : Option String
  interfaces : Option (List String)

/-- One target group (main.py 141-142; `devices` defaults to `[]`). -/
structure TargetGroup where
  dna_center_name : Option String
  devices : List DeviceEntry

/-- One controller entry; the source reads `name`, `ip`, `username` and
`password` with mandatory indexing (main.py 123, 153-155). -/
structure DnaCenter where
  name : String
  ip : String
  username : String
  password : String

/-- The loaded configuration (main.py 123-124; both lists default to `[]`). -/
structure Config where
  dna_centers : List DnaCenter
  targets : List TargetGroup

/-- Processing of one device entry (main.py lines 171-262): skip on a falsy
`device_name`; resolve the device id inside the `try`; a falsy id gives the
device-not-found row; `interfaces` being absent makes the `for` raise
`TypeError`; exceptions from the lookup or the interface loop become one
error row for the device. -/
def deviceOutcome (o : Oracle) (ip : String) (token : Json) (dcName : String)
    (d : DeviceEntry) : Out2 :=
  match d.device_name with
  | none => ⟨[], []⟩
  | some devName =>
      if devName.isEmpty then ⟨[], []⟩
      else
        let callEvt := Event.deviceCall ip token devName
        match get_device_id o token ip devName with
        | .error e => ⟨[callEvt], [deviceErrRow dcName devName e]⟩
        | .ok idOpt =>
            if truthyOpt idOpt then
              match idOpt with
              | some deviceId =>
                  match d.interfaces with
                  | none => ⟨[callEvt], [deviceErrRow dcName devName .typeError]⟩
                  | some ifaces =>
                      let r := ifacesLoop o ip token deviceId dcName devName ifaces
                      ⟨callEvt :: r.events, r.rows⟩
              | none => ⟨[callEvt], [deviceNotFoundRow dcName devName]⟩
            else ⟨[callEvt], [deviceNotFoundRow dcName devName]⟩

/-- The `dna_centers_config` dict built by comprehension (main.py 123): a
later entry with the same name overwrites an earlier one. -/
def lookupDC : List DnaCenter → String → Option DnaCenter
  | [], _ => none
  | dc :: rest, n =>
      match lookupDC rest n with
      | some d => some d
      | none => if dc.name == n then some dc else none

/-- The device loop of one target group (main.py line 171).  Device-level
exceptions never escape it: both `except` clauses catch them. -/
def devicesLoop (o : Oracle) (ip : String) (token : Json) (dcName : String) :
    List DeviceEntry → Out2
  | [] => ⟨[], []⟩
  | d :: rest =>
      let r := deviceOutcome o ip token dcName d
      let r2 := devicesLoop o ip token dcName rest
      ⟨r.events ++ r2.events, r.rows ++ r2.rows⟩

/-- The token cache (main.py line 137), keyed by controller IP. -/
abbrev Cache := List (String × Json)

/-- Result of processing one target group. -/
structure GroupResult where
  out : Out2
  cache : Cache
  abort : Option PyExc

/-- Processing of one target group (main.py lines 140-262): skip on a falsy
or unknown controller name; authenticate unless the IP is cached; a
`RequestException` from `get_token` skips the group (main.py 163-165), while
any other exception from `get_token` (the `KeyError` of a missing `Token`
field) escapes the group loop entirely. -/
def groupOutcome (o : Oracle) (dcs : List DnaCenter) (g : TargetGroup)
    (cache : Cache) : GroupResult :=
  match g.dna_center_name with
  | none => ⟨⟨[], []⟩, cache, none⟩
  | some n =>
      if n.isEmpty then ⟨⟨[], []⟩, cache, none⟩
      else
        match lookupDC dcs n with
        | none => ⟨⟨[], []⟩, cache, none⟩
        | some dc =>
            match cache.lookup dc.ip with
            | some token => ⟨devicesLoop o dc.ip token n g.devices, cache, none⟩
            | none =>
                let evt := Event.authCall dc.ip dc.username dc.password
                match get_token o dc.ip dc.username dc.password with
                | .error (.requestException _) => ⟨⟨[evt], []⟩, cache, none⟩
                | .error e => ⟨⟨[evt], []⟩, cache, some e⟩
                | .ok token =>
                    let cache2 := cache ++ [(dc.ip, token)]
                    let r := devicesLoop o dc.ip token n g.devices
                    ⟨⟨evt :: r.events, r.rows⟩, cache2, none⟩

/-- Everything `main` produced: rows appended to the report in order, REST
calls in order, and the exception (if any) that escaped the group loop into
`main`'s outer `except` clauses (main.py 264-271). -/
structure RunResult where
  events : List Event
  rows : List Row
  aborted : Option PyExc

/-- The group loop (main.py line 140); an escaping exception ends it, rows
already written persist. -/
def groupsLoop (o : Oracle) (dcs : List DnaCenter) :
    List TargetGroup → Cache → RunResult
  | [], _ => ⟨[], [], none⟩
  | g :: rest, cache =>
      let gr := groupOutcome o dcs g cache
      match gr.abort with
      | some e => ⟨gr.out.events, gr.out.rows, some e⟩
      | none =>
          let r2 := groupsLoop o dcs rest gr.cache
          ⟨gr.out.events ++ r2.events, gr.out.rows ++ r2.rows, r2.aborted⟩

/-- The body of `main` after a successful configuration load (main.py
126-262): early return when either list is empty, else the group loop with
an empty token cache. -/
def runMain (cfg : Config) (o : Oracle) : RunResult :=
  if cfg.dna_centers.isEmpty then ⟨[], [], none⟩
  else if cfg.targets.isEmpty then ⟨[], [], none⟩
  else groupsLoop o cfg.dna_centers cfg.targets []

/-- Outcomes of `load_config` (main.py 18-29): `FileNotFoundError`,
`ValueError` from a YAML parse error, or any other exception. -/
inductive LoadError where
  | fileNotFound
  | yamlError
  | otherError

/-- The exception escaping `main()` itself: every load failure is caught by
the `except` clauses at main.py 264-267/270, and every exception escaping
the group loop is caught at main.py 268-271, so nothing ever escapes. -/
def mainEscapes (loaded : Except LoadError Config) (o : Oracle) : Option PyExc :=
  match loaded with
  | .error _ => none
  | .ok cfg =>
      match (runMain cfg o).aborted with
      | some _ => none
      | none => none

/-- The process exit code: `main()` is called bare at main.py 273-274, so
the interpreter exits 0 unless an exception escapes `main`. -/
def processExitCode (loaded : Except LoadError Config) (o : Oracle) : Nat :=
  match mainEscapes loaded o with
  | none => 0
  | some _ => 1

/-- Whether an event is an interface lookup; one such call is made per
attempted (device, interface) pair. -/
def isIfaceCall : Event → Bool
  | .ifaceCall .. => true
  | _ => false

/-- Number of attempted (device, interface) pairs in a trace. -/
def countIfaceCalls (l : List Event) : Nat :=
  (l.filter isIfaceCall).length

/-- Whether a device-inventory call amounted to a failed device lookup:
a transport error, an exception while scanning the inventory, or a falsy
device id.  The oracle is a function, so replaying the call on the
arguments recorded in the event reproduces the outcome seen by the run. -/
def deviceLookupFailed (o : Oracle) : Event → Bool
  | .deviceCall ip token name =>
      match get_device_id o token ip name with
      | .error _ => true
      | .ok idOpt => !truthyOpt idOpt
  | _ => false

/-- Number of failed device lookups in a trace. -/
def countDeviceFailures (o : Oracle) (l : List Event) : Nat :=
  (l.filter (deviceLookupFailed o)).length

/-- Whether an event is an authentication request against the given IP. -/
def isAuthCallFor (ip : String) : Event → Bool
  | .authCall i _ _ => i == ip
  | _ => false

/-- Number of authentication requests against the given IP in a trace. -/
def authCallCount (ip : String) (l : List Event) : Nat :=
  (l.filter (isAuthCallFor ip)).length

/-- Whether an `Except` value is a success. -/
def exceptOk {ε α : Type} : Except ε α → Bool
  | .ok _ => true
  | .error _ => false

/-- Whether an event is an authentication request against the given IP that
succeeded (replaying `get_token` on the recorded credentials). -/
def isAuthSuccessFor (o : Oracle) (ip : String) : Event → Bool
  | .authCall i u p => i == ip && exceptOk (get_token o i u p)
  | _ => false

/-- Number of successful authentications against the given IP in a trace. -/
def authSuccessCount (o : Oracle) (ip : String) (l : List Event) : Nat :=
  (l.filter (isAuthSuccessFor o ip)).length

/-! Concrete configurations and oracles for the closed theorems and the
witnesses below. -/

/-- An environment in which every endpoint fails at the transport level. -/
def oAuthDown : Oracle where
  authResp _ _ _ := .error "connection refused"
  deviceResp _ _ := .error "connection refused"
  interfaceResp _ _ _ _ := .error "connection refused"
  utilResp _ _ _ := .error "connection refused"

/-- Two target groups referencing the same controller name. -/
def cfgTwoGroups : Config where
  dna_centers := [⟨"DC1", "10.0.0.1", "u", "p"⟩]
  targets := [⟨some "DC1", []⟩, ⟨some "DC1", []⟩]

/-- Healthy responses for the scenario of spec section 8: device `sw1` has
id `d1`; interface `Gig1/0/1` resolves with status `up` and utilization
(12, 7); every other interface name yields an empty `response` object. -/
def oScenario : Oracle where
  authResp ip _ _ :=
    if ip == "10.0.0.1" then .ok (.obj [("Token", .str "tok1")])
    else .error "unreachable"
  deviceResp _ ip :=
    if ip == "10.0.0.1" then
      .ok (.obj [("response",
        .arr [.obj [("hostname", .str "sw1"), ("id", .str "d1")]])])
    else .error "unreachable"
  interfaceResp _ _ _ ifn :=
    if ifn == "Gig1/0/1" then
      .ok (.obj [("response",
        .obj [("instanceUuid", .str "i1"), ("status", .str "up")])])
    else .ok (.obj [("response", .obj [])])
  utilResp _ _ _ :=
    .ok (.obj [("response",
      .obj [("txUtilization", .num 12), ("rxUtilization", .num 7)])])

/-- The configuration of the scenario of spec section 8. -/
def cfgScenario : Config where
  dna_centers := [⟨"DC1", "10.0.0.1", "u", "p"⟩]
  targets := [⟨some "DC1", [⟨some "sw1", some ["Gig1/0/1", "Gig1/0/2"]⟩]⟩]

/-- The controller at 1.1.1.1 answers the token request with status 200 but
a body lacking the `Token` field; the controller at 2.2.2.2 is healthy. -/
def oNoToken : Oracle where
  authResp ip _ _ :=
    if ip == "1.1.1.1" then .ok (.obj [("result", .str "ok")])
    else .ok (.obj [("Token", .str "tokB")])
  deviceResp _ _ :=
    .ok (.obj [("response",
      .arr [.obj [("hostname", .str "swB"), ("id", .str "dB")]])])
  interfaceResp _ _ _ _ :=
    .ok (.obj [("response",
      .obj [("instanceUuid", .str "iB"), ("status", .str "up")])])
  utilResp _ _ _ := .ok (.obj [("response", .obj [])])

/-- Two controllers, one target group each; the first controller is the one
whose token response is malformed under `oNoToken`. -/
def cfgTwoCenters : Config where
  dna_centers := [⟨"DCA", "1.1.1.1", "ua", "pa"⟩, ⟨"DCB", "2.2.2.2", "ub", "pb"⟩]
  targets := [⟨some "DCA", [⟨some "swA", some ["Gig1"]⟩]⟩,
              ⟨some "DCB", [⟨some "swB", some ["Gig1"]⟩]⟩]

/-- The lookup for interface `Gig1` answers 200 with `{"response": []}`, an
empty result set; `Gig2` would resolve normally. -/
def oEmptyIfaceResp : Oracle where
  authResp _ _ _ := .ok (.obj [("Token", .str "t")])
  deviceResp _ _ :=
    .ok (.obj [("response",
      .arr [.obj [("hostname", .str "sw1"), ("id", .str "d1")]])])
  interfaceResp _ _ _ ifn :=
    if ifn == "Gig1" then .ok (.obj [("response", .arr [])])
    else
      .ok (.obj [("response",
        .obj [("instanceUuid", .str "i2"), ("status", .str "up")])])
  utilResp _ _ _ := .ok (.obj [("response", .obj [])])

/-- One device with two interfaces, the first of which gets the empty
response array under `oEmptyIfaceResp`. -/
def cfgTwoIfaces : Config where
  dna_centers := [⟨"DC1", "10.0.0.1", "u", "p"⟩]
  targets := [⟨some "DC1", [⟨some "sw1", some ["Gig1", "Gig2"]⟩]⟩]

/-- A device inventory containing no devices at all. -/
def oDevNotFound : Oracle where
  authResp _ _ _ := .ok (.obj [("Token", .str "t")])
  deviceResp _ _ := .ok (.obj [("response", .arr [])])
  interfaceResp _ _ _ _ := .error "unreachable"
  utilResp _ _ _ := .error "unreachable"

/-- One controller, one device, one interface. -/
def cfgOneIface : Config where
  dna_centers := [⟨"DC1", "10.0.0.1", "u", "p"⟩]
  targets := [⟨some "DC1", [⟨some "sw1", some ["Gig1"]⟩]⟩]

/-- Transport failure on the lookup of interface `Gig2` only; every other
interface resolves and has utilization (12, 7). -/
def oIfaceDown : Oracle where
  authResp _ _ _ := .ok (.obj [("Token", .str "t")])
  deviceResp _ _ :=
    .ok (.obj [("response",
      .arr [.obj [("hostname", .str "sw1"), ("id", .str "d1")]])])
  interfaceResp _ _ _ ifn :=
    if ifn == "Gig2" then .error "timeout"
    else
      .ok (.obj [("response",
        .obj [("instanceUuid", .str "i1"), ("status", .str "up")])])
  utilResp _ _ _ :=
    .ok (.obj [("response",
      .obj [("txUtilization", .num 12), ("rxUtilization", .num 7)])])

/-- The interface resolves; the statistics body carries a `txUtilization`
but no `rxUtilization` field. -/
def oStatsPartial : Oracle where
  authResp _ _ _ := .ok (.obj [("Token", .str "t")])
  deviceResp _ _ :=
    .ok (.obj [("response",
      .arr [.obj [("hostname", .str "sw1"), ("id", .str "d1")]])])
  interfaceResp _ _ _ _ :=
    .ok (.obj [("response",
      .obj [("instanceUuid", .str "i1"), ("status", .str "up")])])
  utilResp _ _ _ :=
    .ok (.obj [("response", .obj [("txUtilization", .num 5)])])

/-- Two controller entries with distinct names but one shared IP address
and different credentials. -/
def dcsSharedIp : List DnaCenter :=
  [⟨"DCA", "9.9.9.9", "u1", "p1"⟩, ⟨"DCB", "9.9.9.9", "u2", "p2"⟩]

/-- Tokens depend on the credentials presented: user `u1` obtains `tokA`,
anyone else obtains `tokB`.  The inventory is empty. -/
def oSharedIp : Oracle where
  authResp ip u _ :=
    if ip == "9.9.9.9" && u == "u1" then .ok (.obj [("Token", .str "tokA")])
    else .ok (.obj [("Token", .str "tokB")])
  deviceResp _ _ := .ok (.obj [("response", .arr [])])
  interfaceResp _ _ _ _ := .error "unreachable"
  utilResp _ _ _ := .error "unreachable"

/-- A target group referencing the first shared-IP controller. -/
def gSharedA : TargetGroup := ⟨some "DCA", []⟩

/-- A target group referencing the second shared-IP controller, with one
device to look up. -/
def gSharedB : TargetGroup := ⟨some "DCB", [⟨some "swB", some ["Gig1"]⟩]⟩

/-! Helper lemmas. -/

theorem lookup_append_of_none {β : Type} (k : String) (l1 l2 : List (String × β))
    (h : l1.lookup k = none) : (l1 ++ l2).lookup k = l2.lookup k := by
  induction l1 with
  | nil => rfl
  | cons x xs ih =>
      rcases x with ⟨a, c⟩
      rw [List.cons_append]
      simp only [List.lookup] at h ⊢
      cases hk : k == a with
      | true => rw [hk] at h; simp at h
      | false => rw [hk] at h; exact ih h

theorem lookup_append_of_some {β : Type} (k : String) (l1 l2 : List (String × β))
    (h : (l1.lookup k).isSome) : (l1 ++ l2).lookup k = l1.lookup k := by
  induction l1 with
  | nil => simp at h
  | cons x xs ih =>
      rcases x with ⟨a, c⟩
      rw [List.cons_append]
      simp only [List.lookup] at h ⊢
      cases hk : k == a with
      | true => rfl
      | false => rw [hk] at h; exact ih h

theorem isAuthSuccessFor_of_not_auth (o : Oracle) (ip : String) (e : Event)
    (h : isAuthEvent e = false) : isAuthSuccessFor o ip e = false := by
  cases e <;> simp_all [isAuthEvent, isAuthSuccessFor]

theorem isAuthCallFor_of_not_auth (ip : String) (e : Event)
    (h : isAuthEvent e = false) : isAuthCallFor ip e = false := by
  cases e <;> simp_all [isAuthEvent, isAuthCallFor]

theorem isAuthSuccessFor_imp_call (o : Oracle) (ip : String) (e : Event)
    (h : isAuthSuccessFor o ip e = true) : isAuthCallFor ip e = true := by
  cases e <;> simp_all [isAuthSuccessFor, isAuthCallFor]

theorem countIfaceCalls_append (l1 l2 : List Event) :
    countIfaceCalls (l1 ++ l2) = countIfaceCalls l1 + countIfaceCalls l2 := by
  simp [countIfaceCalls, List.filter_append]

theorem countDeviceFailures_append (o : Oracle) (l1 l2 : List Event) :
    countDeviceFailures o (l1 ++ l2)
      = countDeviceFailures o l1 + countDeviceFailures o l2 := by
  simp [countDeviceFailures, List.filter_append]

theorem authSuccessCount_append (o : Oracle) (ip : String) (l1 l2 : List Event) :
    authSuccessCount o ip (l1 ++ l2)
      = authSuccessCount o ip l1 + authSuccessCount o ip l2 := by
  simp [authSuccessCount, List.filter_append]

theorem authCallCount_append (ip : String) (l1 l2 : List Event) :
    authCallCount ip (l1 ++ l2) = authCallCount ip l1 + authCallCount ip l2 := by
  simp [authCallCount, List.filter_append]

theorem ifaceOutcome_events_shape (o : Oracle) (ip : String) (token deviceId : Json)
    (dcName devName ifaceName : String) :
    (ifaceOutcome o ip token deviceId dcName devName ifaceName).events
        = [Event.ifaceCall ip token deviceId ifaceName]
    ∨ ∃ idv, (ifaceOutcome o ip token deviceId dcName devName ifaceName).events
        = [Event.ifaceCall ip token deviceId ifaceName, Event.utilCall ip token idv] := by
  unfold ifaceOutcome
  split
  · exact Or.inl rfl
  · split
    · exact Or.inl rfl
    · split
      · split
        · exact Or.inr ⟨_, rfl⟩
        · exact Or.inr ⟨_, rfl⟩
      · exact Or.inl rfl

theorem ifaceOutcome_rows_shape (o : Oracle) (ip : String) (token deviceId : Json)
    (dcName devName ifaceName : String) :
    ((ifaceOutcome o ip token deviceId dcName devName ifaceName).exc = none
       ∧ (ifaceOutcome o ip token deviceId dcName devName ifaceName).rows.length = 1)
    ∨ (∃ e, (ifaceOutcome o ip token deviceId dcName devName ifaceName).exc = some e
       ∧ (ifaceOutcome o ip token deviceId dcName devName ifaceName).rows = []) := by
  unfold ifaceOutcome
  split
  · exact Or.inr ⟨_, rfl, rfl⟩
  · split
    · exact Or.inl ⟨rfl, rfl⟩
    · split
      · split
        · exact Or.inr ⟨_, rfl, rfl⟩
        · exact Or.inl ⟨rfl, rfl⟩
      · exact Or.inl ⟨rfl, rfl⟩

theorem ifaceOutcome_countIface (o : Oracle) (ip : String) (token deviceId : Json)
    (dcName devName ifaceName : String) :
    countIfaceCalls (ifaceOutcome o ip token deviceId dcName devName ifaceName).events = 1 := by
  rcases ifaceOutcome_events_shape o ip token deviceId dcName devName ifaceName with h | ⟨idv, h⟩ <;>
    simp [h, countIfaceCalls, List.filter, isIfaceCall]

theorem ifaceOutcome_countDevFail (oq o : Oracle) (ip : String) (token deviceId : Json)
    (dcName devName ifaceName : String) :
    countDeviceFailures oq (ifaceOutcome o ip token deviceId dcName devName ifaceName).events = 0 := by
  rcases ifaceOutcome_events_shape o ip token deviceId dcName devName ifaceName with h | ⟨idv, h⟩ <;>
    simp [h, countDeviceFailures, List.filter, deviceLookupFailed]

theorem ifaceOutcome_events_token (o : Oracle) (ip : String) (token deviceId : Json)
    (dcName devName ifaceName : String) :
    ∀ e ∈ (ifaceOutcome o ip token deviceId dcName devName ifaceName).events,
      isAuthEvent e = false ∧ eventToken e = some token := by
  rcases ifaceOutcome_events_shape o ip token deviceId dcName devName ifaceName with h | ⟨idv, h⟩
  · rw [h]
    intro e he
    rw [List.mem_singleton] at he
    subst he
    exact ⟨rfl, rfl⟩
  · rw [h]
    intro e he
    simp only [List.mem_cons, List.not_mem_nil, or_false] at he
    rcases he with rfl | rfl
    · exact ⟨rfl, rfl⟩
    · exact ⟨rfl, rfl⟩

theorem ifacesLoop_counts (o : Oracle) (ip : String) (token deviceId : Json)
    (dcName devName : String) (l : List String) :
    (ifacesLoop o ip token deviceId dcName devName l).rows.length
      = countIfaceCalls (ifacesLoop o ip token deviceId dcName devName l).events
    ∧ countDeviceFailures o (ifacesLoop o ip token deviceId dcName devName l).events = 0 := by
  induction l with
  | nil => simp [ifacesLoop, countIfaceCalls, countDeviceFailures, List.filter]
  | cons n rest ih =>
      simp only [ifacesLoop]
      cases hexc : (ifaceOutcome o ip token deviceId dcName devName n).exc with
      | some e =>
          rcases ifaceOutcome_rows_shape o ip token deviceId dcName devName n with
            ⟨h1, _⟩ | ⟨e2, h1, h2⟩
          · rw [hexc] at h1; cases h1
          · constructor
            · rw [h2]
              simp [ifaceOutcome_countIface o ip token deviceId dcName devName n]
            · exact ifaceOutcome_countDevFail o o ip token deviceId dcName devName n
      | none =>
          rcases ifaceOutcome_rows_shape o ip token deviceId dcName devName n with
            ⟨h1, h2⟩ | ⟨e2, h1, _⟩
          · constructor
            · simp only [List.length_append, countIfaceCalls_append, h2, ih.1,
                ifaceOutcome_countIface o ip token deviceId dcName devName n]
            · simp only [countDeviceFailures_append, ih.2,
                ifaceOutcome_countDevFail o o ip token deviceId dcName devName n]
          · rw [hexc] at h1; cases h1

theorem ifacesLoop_events_token (o : Oracle) (ip : String) (token deviceId : Json)
    (dcName devName : String) (l : List String) :
    ∀ e ∈ (ifacesLoop o ip token deviceId dcName devName l).events,
      isAuthEvent e = false ∧ eventToken e = some token := by
  induction l with
  | nil => intro e he; simp [ifacesLoop] at he
  | cons n rest ih =>
      simp only [ifacesLoop]
      cases hexc : (ifaceOutcome o ip token deviceId dcName devName n).exc with
      | some e =>
          exact ifaceOutcome_events_token o ip token deviceId dcName devName n
      | none =>
          intro e he
          rcases List.mem_append.mp he with h | h
          · exact ifaceOutcome_events_token o ip token deviceId dcName devName n e h
          · exact ih e h

theorem ifacesLoop_split (o : Oracle) (ip : String) (token deviceId : Json)
    (dcName devName : String) (pre post : List String) (bad : String) (exc : PyExc)
    (hpre : ∀ x ∈ pre, (ifaceOutcome o ip token deviceId dcName devName x).exc = none)
    (hbad : (ifaceOutcome o ip token deviceId dcName devName bad).exc = some exc) :
    ifacesLoop o ip token deviceId dcName devName (pre ++ bad :: post)
      = ⟨(pre.map fun x => (ifaceOutcome o ip token deviceId dcName devName x).events).flatten
           ++ (ifaceOutcome o ip token deviceId dcName devName bad).events,
         (pre.map fun x => (ifaceOutcome o ip token deviceId dcName devName x).rows).flatten
           ++ ((ifaceOutcome o ip token deviceId dcName devName bad).rows
                ++ [deviceErrRow dcName devName exc])⟩ := by
  induction pre with
  | nil =>
      simp only [List.nil_append, List.map_nil, List.flatten_nil, ifacesLoop, hbad]
  | cons x xs ih =>
      have hx := hpre x (List.mem_cons_self x xs)
      have ih2 := ih (fun y hy => hpre y (List.mem_cons_of_mem x hy))
      rw [List.cons_append]
      simp only [ifacesLoop, hx, ih2, List.map_cons, List.flatten_cons, List.append_assoc]

theorem deviceOutcome_counts (o : Oracle) (ip : String) (token : Json)
    (dcName : String) (d : DeviceEntry) (hd : d.interfaces ≠ none) :
    (deviceOutcome o ip token dcName d).rows.length
      = countIfaceCalls (deviceOutcome o ip token dcName d).events
        + countDeviceFailures o (deviceOutcome o ip token dcName d).events := by
  unfold deviceOutcome
  cases hn : d.device_name with
  | none => simp [countIfaceCalls, countDeviceFailures, List.filter]
  | some devName =>
      cases hemp : devName.isEmpty with
      | true => simp [hemp, countIfaceCalls, countDeviceFailures, List.filter]
      | false =>
          simp only [hemp, Bool.false_eq_true, if_false]
          cases hdev : get_device_id o token ip devName with
          | error e =>
              simp [countIfaceCalls, countDeviceFailures, List.filter,
                isIfaceCall, deviceLookupFailed, hdev]
          | ok idOpt =>
              cases htr : truthyOpt idOpt with
              | false =>
                  simp [htr, countIfaceCalls, countDeviceFailures, List.filter,
                    isIfaceCall, deviceLookupFailed, hdev]
              | true =>
                  simp only [htr, if_true]
                  cases idOpt with
                  | none => simp [truthyOpt] at htr
                  | some deviceId =>
                      cases hif : d.interfaces with
                      | none => exact absurd hif hd
                      | some ifaces =>
                          have hl := ifacesLoop_counts o ip token deviceId dcName devName ifaces
                          simp only [List.length_cons, countIfaceCalls, countDeviceFailures,
                            List.filter] at hl ⊢
                          simp only [isIfaceCall, deviceLookupFailed, hdev, htr,
                            Bool.not_true] at hl ⊢
                          omega

theorem deviceOutcome_events_token (o : Oracle) (ip : String) (token : Json)
    (dcName : String) (d : DeviceEntry) :
    ∀ e ∈ (deviceOutcome o ip token dcName d).events,
      isAuthEvent e = false ∧ eventToken e = some token := by
  unfold deviceOutcome
  cases hn : d.device_name with
  | none => intro e he; simp at he
  | some devName =>
      cases hemp : devName.isEmpty with
      | true => intro e he; simp [hemp] at he
      | false =>
          simp only [hemp, Bool.false_eq_true, if_false]
          cases hdev : get_device_id o token ip devName with
          | error e2 =>
              intro e he
              rw [List.mem_singleton] at he
              subst he
              exact ⟨rfl, rfl⟩
          | ok idOpt =>
              cases htr : truthyOpt idOpt with
              | false =>
                  intro e he
                  simp only [if_false, htr, Bool.false_eq_true] at he
                  rw [List.mem_singleton] at he
                  subst he
                  exact ⟨rfl, rfl⟩
              | true =>
                  simp only [htr, if_true]
                  cases idOpt with
                  | none => simp [truthyOpt] at htr
                  | some deviceId =>
                      cases hif : d.interfaces with
                      | none =>
                          intro e he
                          rw [List.mem_singleton] at he
                          subst he
                          exact ⟨rfl, rfl⟩
                      | some ifaces =>
                          intro e he
                          rcases List.mem_cons.mp he with rfl | h
                          · exact ⟨rfl, rfl⟩
                          · exact ifacesLoop_events_token o ip token deviceId
                              dcName devName ifaces e h

theorem devicesLoop_counts (o : Oracle) (ip : String) (token : Json)
    (dcName : String) (ds : List DeviceEntry)
    (hds : ∀ d ∈ ds, d.interfaces ≠ none) :
    (devicesLoop o ip token dcName ds).rows.length
      = countIfaceCalls (devicesLoop o ip token dcName ds).events
        + countDeviceFailures o (devicesLoop o ip token dcName ds).events := by
  induction ds with
  | nil => simp [devicesLoop, countIfaceCalls, countDeviceFailures, List.filter]
  | cons d rest ih =>
      have h1 := deviceOutcome_counts o ip token dcName d
        (hds d (List.mem_cons_self d rest))
      have ih2 := ih (fun y hy => hds y (List.mem_cons_of_mem d hy))
      simp only [devicesLoop, List.length_append, countIfaceCalls_append,
        countDeviceFailures_append, h1, ih2]
      omega

theorem devicesLoop_events_token (o : Oracle) (ip : String) (token : Json)
    (dcName : String) (ds : List DeviceEntry) :
    ∀ e ∈ (devicesLoop o ip token dcName ds).events,
      isAuthEvent e = false ∧ eventToken e = some token := by
  induction ds with
  | nil => intro e he; simp [devicesLoop] at he
  | cons d rest ih =>
      intro e he
      rcases List.mem_append.mp he with h | h
      · exact deviceOutcome_events_token o ip token dcName d e h
      · exact ih e h

theorem groupOutcome_cases (o : Oracle) (dcs : List DnaCenter) (g : TargetGroup)
    (cache : Cache) :
    (groupOutcome o dcs g cache = ⟨⟨[], []⟩, cache, none⟩)
    ∨ (∃ n dc tok, g.dna_center_name = some n ∧ lookupDC dcs n = some dc
         ∧ cache.lookup dc.ip = some tok
         ∧ groupOutcome o dcs g cache
             = ⟨devicesLoop o dc.ip tok n g.devices, cache, none⟩)
    ∨ (∃ n dc tok, g.dna_center_name = some n ∧ lookupDC dcs n = some dc
         ∧ cache.lookup dc.ip = none
         ∧ get_token o dc.ip dc.username dc.password = .ok tok
         ∧ groupOutcome o dcs g cache
             = ⟨⟨.authCall dc.ip dc.username dc.password
                   :: (devicesLoop o dc.ip tok n g.devices).events,
                 (devicesLoop o dc.ip tok n g.devices).rows⟩,
                cache ++ [(dc.ip, tok)], none⟩)
    ∨ (∃ n dc ab, g.dna_center_name = some n ∧ lookupDC dcs n = some dc
         ∧ cache.lookup dc.ip = none
         ∧ exceptOk (get_token o dc.ip dc.username dc.password) = false
         ∧ groupOutcome o dcs g cache
             = ⟨⟨[.authCall dc.ip dc.username dc.password], []⟩, cache, ab⟩) := by
  cases hn : g.dna_center_name with
  | none => left; simp [groupOutcome, hn]
  | some n =>
      cases hemp : n.isEmpty with
      | true => left; simp [groupOutcome, hn, hemp]
      | false =>
          cases hdc : lookupDC dcs n with
          | none => left; simp [groupOutcome, hn, hemp, hdc]
          | some dc =>
              cases hca : cache.lookup dc.ip with
              | some tok =>
                  refine Or.inr (Or.inl ⟨n, dc, tok, rfl, hdc, hca, ?_⟩)
                  simp [groupOutcome, hn, hemp, hdc, hca]
              | none =>
                  cases htk : get_token o dc.ip dc.username dc.password with
                  | ok tok =>
                      refine Or.inr (Or.inr (Or.inl ⟨n, dc, tok, rfl, hdc, hca, htk, ?_⟩))
                      simp [groupOutcome, hn, hemp, hdc, hca, htk]
                  | error e =>
                      cases e with
                      | requestException m =>
                          refine Or.inr (Or.inr (Or.inr ⟨n, dc, none, rfl, hdc, hca, ?_, ?_⟩))
                          · rw [htk]; rfl
                          · simp [groupOutcome, hn, hemp, hdc, hca, htk]
                      | keyError k =>
                          refine Or.inr (Or.inr (Or.inr
                            ⟨n, dc, some (.keyError k), rfl, hdc, hca, ?_, ?_⟩))
                          · rw [htk]; rfl
                          · simp [groupOutcome, hn, hemp, hdc, hca, htk]
                      | attributeError =>
                          refine Or.inr (Or.inr (Or.inr
                            ⟨n, dc, some .attributeError, rfl, hdc, hca, ?_, ?_⟩))
                          · rw [htk]; rfl
                          · simp [groupOutcome, hn, hemp, hdc, hca, htk]
                      | typeError =>
                          refine Or.inr (Or.inr (Or.inr
                            ⟨n, dc, some .typeError, rfl, hdc, hca, ?_, ?_⟩))
                          · rw [htk]; rfl
                          · simp [groupOutcome, hn, hemp, hdc, hca, htk]

theorem countIfaceCalls_cons (e : Event) (l : List Event) :
    countIfaceCalls (e :: l)
      = (if isIfaceCall e then 1 else 0) + countIfaceCalls l := by
  simp only [countIfaceCalls, List.filter_cons]
  split <;> simp [Nat.add_comm]

theorem countDeviceFailures_cons (o : Oracle) (e : Event) (l : List Event) :
    countDeviceFailures o (e :: l)
      = (if deviceLookupFailed o e then 1 else 0) + countDeviceFailures o l := by
  simp only [countDeviceFailures, List.filter_cons]
  split <;> simp [Nat.add_comm]

theorem authSuccessCount_cons (o : Oracle) (ip : String) (e : Event) (l : List Event) :
    authSuccessCount o ip (e :: l)
      = (if isAuthSuccessFor o ip e then 1 else 0) + authSuccessCount o ip l := by
  simp only [authSuccessCount, List.filter_cons]
  split <;> simp [Nat.add_comm]

theorem authSuccessCount_zero_of_no_call (o : Oracle) (ip : String) (l : List Event)
    (h : ∀ e ∈ l, isAuthCallFor ip e = false) : authSuccessCount o ip l = 0 := by
  unfold authSuccessCount
  rw [List.filter_eq_nil_iff.mpr]
  · rfl
  · intro e he hs
    have hc := isAuthSuccessFor_imp_call o ip e hs
    rw [h e he] at hc
    cases hc

theorem authSuccessCount_zero_of_no_auth (o : Oracle) (ip : String) (l : List Event)
    (h : ∀ e ∈ l, isAuthEvent e = false) : authSuccessCount o ip l = 0 := by
  unfold authSuccessCount
  rw [List.filter_eq_nil_iff.mpr]
  · rfl
  · intro e he hs
    rw [isAuthSuccessFor_of_not_auth o ip e (h e he)] at hs
    cases hs

theorem groupsLoop_no_authCall (o : Oracle) (dcs : List DnaCenter) (ip : String) :
    ∀ (gs : List TargetGroup) (cache : Cache), (cache.lookup ip).isSome →
    ∀ e ∈ (groupsLoop o dcs gs cache).events, isAuthCallFor ip e = false := by
  intro gs
  induction gs with
  | nil => intro cache _ e he; simp [groupsLoop] at he
  | cons g rest ih =>
      intro cache hc e he
      rcases groupOutcome_cases o dcs g cache with hg | ⟨n, dc, tok, hn, hdc, hca, hg⟩ |
        ⟨n, dc, tok, hn, hdc, hca, htk, hg⟩ | ⟨n, dc, ab, hn, hdc, hca, htk, hg⟩
      · rw [groupsLoop, hg] at he
        simp only [List.nil_append] at he
        exact ih cache hc e he
      · rw [groupsLoop, hg] at he
        simp only at he
        rcases List.mem_append.mp he with h | h
        · exact isAuthCallFor_of_not_auth ip e
            (devicesLoop_events_token o dc.ip tok n g.devices e h).1
        · exact ih cache hc e h
      · have hne : (dc.ip == ip) = false := by
          cases hip : dc.ip == ip with
          | false => rfl
          | true =>
              have hip2 := eq_of_beq hip
              rw [hip2] at hca
              rw [hca] at hc
              simp at hc
        rw [groupsLoop, hg] at he
        simp only [List.cons_append, List.mem_cons] at he
        rcases he with rfl | he
        · simpa [isAuthCallFor] using hne
        · rcases List.mem_append.mp he with h | h
          · exact isAuthCallFor_of_not_auth ip e
              (devicesLoop_events_token o dc.ip tok n g.devices e h).1
          · have hc2 : ((cache ++ [(dc.ip, tok)]).lookup ip).isSome := by
              rw [lookup_append_of_some ip cache _ hc]
              exact hc
            exact ih (cache ++ [(dc.ip, tok)]) hc2 e h
      · have hne : (dc.ip == ip) = false := by
          cases hip : dc.ip == ip with
          | false => rfl
          | true =>
              have hip2 := eq_of_beq hip
              rw [hip2] at hca
              rw [hca] at hc
              simp at hc
        cases ab with
        | some ex =>
            rw [groupsLoop, hg] at he
            simp only [List.mem_singleton] at he
            subst he
            simpa [isAuthCallFor] using hne
        | none =>
            rw [groupsLoop, hg] at he
            simp only [List.cons_append, List.nil_append, List.mem_cons] at he
            rcases he with rfl | he
            · simpa [isAuthCallFor] using hne
            · exact ih cache hc e he

theorem groupsLoop_authSuccess_le_one (o : Oracle) (dcs : List DnaCenter) (ip : String) :
    ∀ (gs : List TargetGroup) (cache : Cache), cache.lookup ip = none →
    authSuccessCount o ip (groupsLoop o dcs gs cache).events ≤ 1 := by
  intro gs
  induction gs with
  | nil => intro cache _; simp [groupsLoop, authSuccessCount, List.filter]
  | cons g rest ih =>
      intro cache hc
      rcases groupOutcome_cases o dcs g cache with hg | ⟨n, dc, tok, hn, hdc, hca, hg⟩ |
        ⟨n, dc, tok, hn, hdc, hca, htk, hg⟩ | ⟨n, dc, ab, hn, hdc, hca, htk, hg⟩
      · rw [groupsLoop, hg]
        simp only [List.nil_append]
        exact ih cache hc
      · rw [groupsLoop, hg]
        simp only [authSuccessCount_append]
        rw [authSuccessCount_zero_of_no_auth o ip _
          (fun e he => (devicesLoop_events_token o dc.ip tok n g.devices e he).1)]
        simpa using ih cache hc
      · rw [groupsLoop, hg]
        simp only [List.cons_append, authSuccessCount_cons, authSuccessCount_append]
        rw [authSuccessCount_zero_of_no_auth o ip _
          (fun e he => (devicesLoop_events_token o dc.ip tok n g.devices e he).1)]
        cases hip : dc.ip == ip with
        | true =>
            have hip2 := eq_of_beq hip
            have hc2 : ((cache ++ [(dc.ip, tok)]).lookup ip).isSome := by
              rw [← hip2]
              rw [lookup_append_of_none dc.ip cache _ hca]
              simp [List.lookup]
            have hrest := authSuccessCount_zero_of_no_call o ip _
              (groupsLoop_no_authCall o dcs ip rest (cache ++ [(dc.ip, tok)]) hc2)
            rw [hrest]
            split <;> simp
        | false =>
            have hsf : isAuthSuccessFor o ip
                (Event.authCall dc.ip dc.username dc.password) = false := by
              simp [isAuthSuccessFor, hip]
            rw [hsf]
            have hc2 : (cache ++ [(dc.ip, tok)]).lookup ip = none := by
              rw [lookup_append_of_none ip cache _ hc]
              simp [List.lookup, BEq.symm_false hip]
            simpa using ih (cache ++ [(dc.ip, tok)]) hc2
      · have hsf : isAuthSuccessFor o ip
            (Event.authCall dc.ip dc.username dc.password) = false := by
          simp only [isAuthSuccessFor, htk, Bool.and_false]
        cases ab with
        | some ex =>
            rw [groupsLoop, hg]
            simp [authSuccessCount_cons, hsf, authSuccessCount, List.filter]
        | none =>
            rw [groupsLoop, hg]
            simp only [List.cons_append, List.nil_append, authSuccessCount_cons, hsf,
              if_false]
            simpa using ih cache hc

theorem groupsLoop_counts (o : Oracle) (dcs : List DnaCenter) :
    ∀ (gs : List TargetGroup) (cache : Cache),
    (∀ g ∈ gs, ∀ d ∈ g.devices, d.interfaces ≠ none) →
    (groupsLoop o dcs gs cache).rows.length
      = countIfaceCalls (groupsLoop o dcs gs cache).events
        + countDeviceFailures o (groupsLoop o dcs gs cache).events := by
  intro gs
  induction gs with
  | nil => intro cache _; simp [groupsLoop, countIfaceCalls, countDeviceFailures, List.filter]
  | cons g rest ih =>
      intro cache hgs
      have hg1 : ∀ d ∈ g.devices, d.interfaces ≠ none :=
        hgs g (List.mem_cons_self g rest)
      have ih2 := ih cache (fun y hy => hgs y (List.mem_cons_of_mem g hy))
      rcases groupOutcome_cases o dcs g cache with hg | ⟨n, dc, tok, hn, hdc, hca, hg⟩ |
        ⟨n, dc, tok, hn, hdc, hca, htk, hg⟩ | ⟨n, dc, ab, hn, hdc, hca, htk, hg⟩
      · rw [groupsLoop, hg]
        simpa using ih cache (fun y hy => hgs y (List.mem_cons_of_mem g hy))
      · rw [groupsLoop, hg]
        have hdev := devicesLoop_counts o dc.ip tok n g.devices hg1
        have ihcache := ih cache (fun y hy => hgs y (List.mem_cons_of_mem g hy))
        simp only [List.length_append, countIfaceCalls_append, countDeviceFailures_append,
          hdev, ihcache]
        omega
      · rw [groupsLoop, hg]
        have hdev := devicesLoop_counts o dc.ip tok n g.devices hg1
        have ihcache := ih (cache ++ [(dc.ip, tok)])
          (fun y hy => hgs y (List.mem_cons_of_mem g hy))
        simp only [List.cons_append, List.length_append, countIfaceCalls_cons,
          countIfaceCalls_append, countDeviceFailures_cons, countDeviceFailures_append,
          isIfaceCall, deviceLookupFailed, Bool.false_eq_true, if_false, hdev, ihcache]
        omega
      · cases ab with
        | some ex =>
            rw [groupsLoop, hg]
            simp [countIfaceCalls, countDeviceFailures, List.filter, isIfaceCall,
              deviceLookupFailed]
        | none =>
            rw [groupsLoop, hg]
            have ihcache := ih cache (fun y hy => hgs y (List.mem_cons_of_mem g hy))
            simp only [List.cons_append, List.nil_append, List.length_append,
              countIfaceCalls_cons, countDeviceFailures_cons, isIfaceCall,
              deviceLookupFailed, Bool.false_eq_true, if_false, ihcache]
            omega

theorem authCallCount_zero_of_no_auth (ip : String) (l : List Event)
    (h : ∀ e ∈ l, isAuthEvent e = false) : authCallCount ip l = 0 := by
  unfold authCallCount
  rw [List.filter_eq_nil_iff.mpr]
  · rfl
  · intro e he hs
    rw [isAuthCallFor_of_not_auth ip e (h e he)] at hs
    cases hs

theorem authCallCount_cons (ip : String) (e : Event) (l : List Event) :
    authCallCount ip (e :: l)
      = (if isAuthCallFor ip e then 1 else 0) + authCallCount ip l := by
  simp only [authCallCount, List.filter_cons]
  split <;> simp [Nat.add_comm]

/-! The claims. -/

/-- C1: if a transport failure (`RequestException`) hits the lookup or the
utilization fetch of some interface of a device, the device-level handler
emits exactly one error row for that device, every interface before the
failing one already produced its row and its calls, no interface after the
failing one is processed at all, and the device loop continues with the
remaining devices unchanged. -/
theorem c1_device_exception_boundary (o : Oracle) (ip : String) (token : Json)
    (dcName devName : String) (d : DeviceEntry) (deviceId : Json)
    (pre post : List String) (bad m : String)
    (hname : d.device_name = some devName)
    (hne : devName.isEmpty = false)
    (hifs : d.interfaces = some (pre ++ bad :: post))
    (hdev : get_device_id o token ip devName = .ok (some deviceId))
    (hid : truthy deviceId = true)
    (hpre : ∀ x ∈ pre, (ifaceOutcome o ip token deviceId dcName devName x).exc = none)
    (hbad : (ifaceOutcome o ip token deviceId dcName devName bad).exc
              = some (.requestException m)) :
    deviceOutcome o ip token dcName d
      = ⟨Event.deviceCall ip token devName
           :: ((pre.map fun x =>
                  (ifaceOutcome o ip token deviceId dcName devName x).events).flatten
                ++ (ifaceOutcome o ip token deviceId dcName devName bad).events),
         (pre.map fun x =>
            (ifaceOutcome o ip token deviceId dcName devName x).rows).flatten
           ++ [deviceErrRow dcName devName (.requestException m)]⟩
    ∧ ∀ rest, devicesLoop o ip token dcName (d :: rest)
        = ⟨(deviceOutcome o ip token dcName d).events
             ++ (devicesLoop o ip token dcName rest).events,
           (deviceOutcome o ip token dcName d).rows
             ++ (devicesLoop o ip token dcName rest).rows⟩ := by
  constructor
  · have hsplit := ifacesLoop_split o ip token deviceId dcName devName pre post bad
      (.requestException m) hpre hbad
    have hrows : (ifaceOutcome o ip token deviceId dcName devName bad).rows = [] := by
      rcases ifaceOutcome_rows_shape o ip token deviceId dcName devName bad with
        ⟨h1, _⟩ | ⟨e2, h1, h2⟩
      · rw [hbad] at h1; cases h1
      · exact h2
    rw [hrows] at hsplit
    simp only [deviceOutcome, hname, hne, Bool.false_eq_true, if_false, hdev,
      truthyOpt, hid, if_true, hifs, hsplit, List.nil_append]
  · intro rest
    rfl

/-- C2: for a valid configuration (every device entry carries its interface
list) the number of rows written equals the number of attempted
(device, interface) pairs plus one row per failed device lookup; interfaces
never reached by a device that failed first contribute nothing. -/
theorem c2_row_count (cfg : Config) (o : Oracle)
    (hvalid : ∀ g ∈ cfg.targets, ∀ d ∈ g.devices, d.interfaces ≠ none) :
    (runMain cfg o).rows.length
      = countIfaceCalls (runMain cfg o).events
        + countDeviceFailures o (runMain cfg o).events := by
  unfold runMain
  split
  · simp [countIfaceCalls, countDeviceFailures, List.filter]
  · split
    · simp [countIfaceCalls, countDeviceFailures, List.filter]
    · exact groupsLoop_counts o cfg.dna_centers cfg.targets [] hvalid

/-- Witness for C2 on the concrete scenario of spec section 8. -/
theorem c2_row_count_witness :
    (∀ g ∈ cfgScenario.targets, ∀ d ∈ g.devices, d.interfaces ≠ none)
    ∧ (runMain cfgScenario oScenario).rows.length
        = countIfaceCalls (runMain cfgScenario oScenario).events
          + countDeviceFailures oScenario (runMain cfgScenario oScenario).events :=
  ⟨by decide, c2_row_count cfgScenario oScenario (by decide)⟩

/-- Witness for C1: device `sw1` with interfaces Gig1, Gig2, Gig3 under an
oracle whose lookup of Gig2 fails at the transport level; Gig1 produced its
data row, the device gets exactly one error row, Gig3 is never queried. -/
theorem c1_witness :
    deviceOutcome oIfaceDown "10.0.0.1" (Json.str "t") "DC1"
        ⟨some "sw1", some ["Gig1", "Gig2", "Gig3"]⟩
      = ⟨[Event.deviceCall "10.0.0.1" (Json.str "t") "sw1",
          Event.ifaceCall "10.0.0.1" (Json.str "t") (Json.str "d1") "Gig1",
          Event.utilCall "10.0.0.1" (Json.str "t") (Json.str "i1"),
          Event.ifaceCall "10.0.0.1" (Json.str "t") (Json.str "d1") "Gig2"],
         [dataRow "DC1" "sw1" "Gig1" (some (Json.str "up"))
            (some (Json.num 12)) (some (Json.num 7)),
          deviceErrRow "DC1" "sw1" (.requestException "timeout")]⟩ :=
  (c1_device_exception_boundary oIfaceDown "10.0.0.1" (Json.str "t") "DC1" "sw1"
    ⟨some "sw1", some ["Gig1", "Gig2", "Gig3"]⟩ (Json.str "d1") ["Gig1"] ["Gig3"]
    "Gig2" "timeout" rfl rfl rfl rfl rfl (by decide) rfl).1

/-- C3 (counterexample): with one controller referenced by two target groups
and an unreachable authentication endpoint, the token request is issued
twice in one run — the claim "invoked at most once per controller identity
in every run" is false, because a failed authentication is not cached and is
retried by the next group. -/
theorem c3_counterexample :
    authCallCount "10.0.0.1" (runMain cfgTwoGroups oAuthDown).events = 2
    ∧ ¬ authCallCount "10.0.0.1" (runMain cfgTwoGroups oAuthDown).events ≤ 1 :=
  ⟨rfl, by decide⟩

/-- C3 (amended): in every run, at most one authentication request per
controller IP succeeds; once a token is obtained it is cached and no
further token request is made for that IP (failed attempts may recur). -/
theorem c3_amended (cfg : Config) (o : Oracle) (ip : String) :
    authSuccessCount o ip (runMain cfg o).events ≤ 1 := by
  unfold runMain
  split
  · simp [authSuccessCount, List.filter]
  · split
    · simp [authSuccessCount, List.filter]
    · exact groupsLoop_authSuccess_le_one o cfg.dna_centers ip cfg.targets [] rfl

/-- C4 (code bug): when the token response of the first controller lacks the
`Token` field, the `KeyError` escapes the group loop and is caught only by
the top-level handler of `main` — the whole run aborts after the single
authentication call: no rows are written, the healthy second controller is
never contacted, and the process still exits 0.  The claim (only the
affected controller's groups skipped, other controllers still processed)
describes the intended behaviour, not the code. -/
theorem c4_token_keyerror_aborts_run :
    (runMain cfgTwoCenters oNoToken).aborted = some (.keyError "Token")
    ∧ (runMain cfgTwoCenters oNoToken).rows = []
    ∧ (runMain cfgTwoCenters oNoToken).events = [.authCall "1.1.1.1" "ua" "pa"]
    ∧ processExitCode (.ok cfgTwoCenters) oNoToken = 0 :=
  ⟨rfl, rfl, rfl, rfl⟩

/-- C5 (counterexample): a failed configuration load does not produce a
non-zero exit code — `main` catches the error, prints, and the process
exits 0. -/
theorem c5_counterexample :
    ¬ processExitCode (Except.error LoadError.fileNotFound) oAuthDown ≠ 0 :=
  fun h => h rfl

/-- C5 (amended): the process exits 0 on every run — including runs whose
configuration load or parse failed, since `main` catches every exception
and nothing sets an exit code. -/
theorem c5_amended (loaded : Except LoadError Config) (o : Oracle) :
    processExitCode loaded o = 0 := by
  unfold processExitCode mainEscapes
  cases loaded with
  | error e => rfl
  | ok cfg => cases h : (runMain cfg o).aborted <;> simp [h]

/-- C6 (code bug): an empty interface-lookup response (`response` an empty
array, or the field absent so the `[]` default is used) does not yield
NotFound: `.get` on a list raises `AttributeError`, which the device-level
generic handler converts into one "Unexpected Error" row for the device,
skipping the device's remaining interfaces — here only 1 of the 2
configured interfaces is ever queried, and no "Interface Not Found" row
appears. -/
theorem c6_empty_response_raises :
    ifaceParse (Json.obj [("response", Json.arr [])]) = .error .attributeError
    ∧ ifaceParse (Json.obj []) = .error .attributeError
    ∧ (runMain cfgTwoIfaces oEmptyIfaceResp).rows
        = [deviceErrRow "DC1" "sw1" .attributeError]
    ∧ countIfaceCalls (runMain cfgTwoIfaces oEmptyIfaceResp).events = 1
    ∧ (runMain cfgTwoIfaces oEmptyIfaceResp).aborted = none :=
  ⟨rfl, rfl, rfl, rfl, rfl⟩

/-- C7 (counterexample): the device-not-found row does not leave the
utilization columns empty — both carry the placeholder string "N/A". -/
theorem c7_counterexample :
    (runMain cfgOneIface oDevNotFound).rows = [deviceNotFoundRow "DC1" "sw1"]
    ∧ (deviceNotFoundRow "DC1" "sw1").tx = some (Json.str "N/A")
    ∧ (deviceNotFoundRow "DC1" "sw1").rx = some (Json.str "N/A")
    ∧ (deviceNotFoundRow "DC1" "sw1").tx ≠ none :=
  ⟨rfl, rfl, rfl, fun h => Option.noConfusion h⟩

/-- C7 (amended): a device lookup that returns no match (falsy id) makes the
orchestrator emit exactly one row with status "Device Not Found" and the
placeholder "N/A" in both utilization columns; no exception escapes
(`deviceOutcome` is total) and the device loop continues with the next
device unchanged. -/
theorem c7_device_not_found (o : Oracle) (ip : String) (token : Json)
    (dcName : String) (d : DeviceEntry) (devName : String) (idOpt : Option Json)
    (hname : d.device_name = some devName)
    (hne : devName.isEmpty = false)
    (hdev : get_device_id o token ip devName = .ok idOpt)
    (hfalsy : truthyOpt idOpt = false) :
    deviceOutcome o ip token dcName d
      = ⟨[Event.deviceCall ip token devName], [deviceNotFoundRow dcName devName]⟩
    ∧ ∀ rest, devicesLoop o ip token dcName (d :: rest)
        = ⟨Event.deviceCall ip token devName
             :: (devicesLoop o ip token dcName rest).events,
           deviceNotFoundRow dcName devName
             :: (devicesLoop o ip token dcName rest).rows⟩ := by
  have h1 : deviceOutcome o ip token dcName d
      = ⟨[Event.deviceCall ip token devName], [deviceNotFoundRow dcName devName]⟩ := by
    simp only [deviceOutcome, hname, hne, Bool.false_eq_true, if_false, hdev,
      hfalsy]
  refine ⟨h1, fun rest => ?_⟩
  show (⟨(deviceOutcome o ip token dcName d).events
           ++ (devicesLoop o ip token dcName rest).events,
         (deviceOutcome o ip token dcName d).rows
           ++ (devicesLoop o ip token dcName rest).rows⟩ : Out2) = _
  rw [h1]
  rfl

/-- Witness for C7 (amended) at a concrete empty inventory. -/
theorem c7_device_not_found_witness :
    deviceOutcome oDevNotFound "10.0.0.1" (Json.str "t") "DC1"
        ⟨some "sw1", some ["Gig1"]⟩
      = ⟨[Event.deviceCall "10.0.0.1" (Json.str "t") "sw1"],
         [deviceNotFoundRow "DC1" "sw1"]⟩ :=
  (c7_device_not_found oDevNotFound "10.0.0.1" (Json.str "t") "DC1"
    ⟨some "sw1", some ["Gig1"]⟩ "sw1" none rfl rfl rfl rfl).1

/-- C8: a target group whose controller name has no match in the configured
controller list produces no rows, no calls and no cache change, and the
group loop on the remaining groups is exactly the loop without it. -/
theorem c8_unknown_controller (o : Oracle) (dcs : List DnaCenter)
    (g : TargetGroup) (n : String) (cache : Cache)
    (hn : g.dna_center_name = some n) (hne : n.isEmpty = false)
    (hmiss : lookupDC dcs n = none) :
    groupOutcome o dcs g cache = ⟨⟨[], []⟩, cache, none⟩
    ∧ ∀ rest, groupsLoop o dcs (g :: rest) cache = groupsLoop o dcs rest cache := by
  have h1 : groupOutcome o dcs g cache = ⟨⟨[], []⟩, cache, none⟩ := by
    simp [groupOutcome, hn, hne, hmiss]
  refine ⟨h1, fun rest => ?_⟩
  rw [groupsLoop, h1]
  rfl

/-- Witness for C8 with the controller name `DCX` absent from the list. -/
theorem c8_unknown_controller_witness :
    groupOutcome oAuthDown [⟨"DC1", "10.0.0.1", "u", "p"⟩]
        ⟨some "DCX", [⟨some "sw1", some ["Gig1"]⟩]⟩ []
      = ⟨⟨[], []⟩, [], none⟩
    ∧ groupsLoop oAuthDown [⟨"DC1", "10.0.0.1", "u", "p"⟩]
        [⟨some "DCX", [⟨some "sw1", some ["Gig1"]⟩]⟩, ⟨some "DC1", []⟩] []
      = groupsLoop oAuthDown [⟨"DC1", "10.0.0.1", "u", "p"⟩] [⟨some "DC1", []⟩] [] :=
  ⟨(c8_unknown_controller oAuthDown [⟨"DC1", "10.0.0.1", "u", "p"⟩]
      ⟨some "DCX", [⟨some "sw1", some ["Gig1"]⟩]⟩ "DCX" [] rfl rfl rfl).1,
   (c8_unknown_controller oAuthDown [⟨"DC1", "10.0.0.1", "u", "p"⟩]
      ⟨some "DCX", [⟨some "sw1", some ["Gig1"]⟩]⟩ "DCX" [] rfl rfl rfl).2
     [⟨some "DC1", []⟩]⟩

/-- C9: on a successful statistics fetch (a dict body), `get_interface_utilization`
never raises: a missing, empty or non-dict `response` field yields
`(None, None)`, a non-empty dict yields exactly the two optional lookups
(absent fields become `None`), and the orchestrator writes whatever pair was
returned straight into the row's utilization cells. -/
theorem c9_absent_utilization_is_null (fields : List (String × Json)) :
    (∃ p, utilParse (Json.obj fields) = Except.ok p)
    ∧ (∀ sf, fields.lookup "response" = some (Json.obj sf) → sf.isEmpty = false →
        utilParse (Json.obj fields)
          = .ok (sf.lookup "txUtilization", sf.lookup "rxUtilization"))
    ∧ ((match fields.lookup "response" with
        | some (Json.obj sf) => sf.isEmpty = true
        | _ => True) →
        utilParse (Json.obj fields) = .ok (none, none))
    ∧ (∀ (o : Oracle) (token : Json) (ip : String) (deviceId idv : Json)
         (statusOpt : Option Json) (dcName devName ifaceName : String)
         (tx rx : Option Json),
        get_interface_id_and_status o token ip deviceId ifaceName
            = .ok (some idv, statusOpt) →
        truthy idv = true →
        get_interface_utilization o token ip idv = .ok (tx, rx) →
        (ifaceOutcome o ip token deviceId dcName devName ifaceName).rows
          = [dataRow dcName devName ifaceName statusOpt tx rx]) := by
  refine ⟨?_, ?_, ?_, ?_⟩
  · cases hr : fields.lookup "response" with
    | none => exact ⟨(none, none), by simp [utilParse, hr]⟩
    | some j =>
        cases j with
        | obj sf =>
            cases hemp : sf.isEmpty with
            | true => exact ⟨(none, none), by simp [utilParse, hr, hemp]⟩
            | false =>
                exact ⟨(sf.lookup "txUtilization", sf.lookup "rxUtilization"),
                  by simp [utilParse, hr, hemp]⟩
        | null => exact ⟨(none, none), by simp [utilParse, hr]⟩
        | bool b => exact ⟨(none, none), by simp [utilParse, hr]⟩
        | num x => exact ⟨(none, none), by simp [utilParse, hr]⟩
        | str st => exact ⟨(none, none), by simp [utilParse, hr]⟩
        | arr l => exact ⟨(none, none), by simp [utilParse, hr]⟩
  · intro sf hr hemp
    simp [utilParse, hr, hemp]
  · intro hm
    cases hr : fields.lookup "response" with
    | none => simp [utilParse, hr]
    | some j =>
        rw [hr] at hm
        cases j with
        | obj sf => simp [utilParse, hr, hm]
        | null => simp [utilParse, hr]
        | bool b => simp [utilParse, hr]
        | num x => simp [utilParse, hr]
        | str st => simp [utilParse, hr]
        | arr l => simp [utilParse, hr]
  · intro o token ip deviceId idv statusOpt dcName devName ifaceName tx rx hif hid hu
    simp only [ifaceOutcome, hif, hid, if_true, hu]

/-- Witness for C9: a statistics body carrying only `txUtilization` maps the
absent `rxUtilization` to `None`, an empty body maps both to `None`, and the
emitted row carries exactly that pair. -/
theorem c9_absent_utilization_witness :
    utilParse (Json.obj [("response", Json.obj [("txUtilization", Json.num 5)])])
        = .ok (some (Json.num 5), none)
    ∧ utilParse (Json.obj []) = .ok (none, none)
    ∧ (ifaceOutcome oStatsPartial "10.0.0.1" (Json.str "t") (Json.str "d1")
        "DC1" "sw1" "Gig1").rows
        = [dataRow "DC1" "sw1" "Gig1" (some (Json.str "up"))
            (some (Json.num 5)) none] :=
  ⟨(c9_absent_utilization_is_null
      [("response", Json.obj [("txUtilization", Json.num 5)])]).2.1
      [("txUtilization", Json.num 5)] rfl rfl,
   (c9_absent_utilization_is_null []).2.2.1 trivial,
   (c9_absent_utilization_is_null []).2.2.2 oStatsPartial (Json.str "t") "10.0.0.1"
     (Json.str "d1") (Json.str "i1") (some (Json.str "up")) "DC1" "sw1" "Gig1"
     (some (Json.num 5)) none rfl rfl rfl⟩

/-- C10: the token cache is keyed by the controller's IP, not its name:
after the first group's successful authentication against an IP, a second
group resolving to a controller config with a different name but the same
IP issues no authentication call at all — all of its calls carry the token
obtained with the first group's credentials, and the cache is unchanged. -/
theorem c10_cache_keyed_by_ip (o : Oracle) (dcs : List DnaCenter)
    (g1 g2 : TargetGroup) (n1 n2 : String) (dc1 dc2 : DnaCenter)
    (cache : Cache) (tok : Json)
    (h1 : g1.dna_center_name = some n1) (h1e : n1.isEmpty = false)
    (hdc1 : lookupDC dcs n1 = some dc1)
    (h2 : g2.dna_center_name = some n2) (h2e : n2.isEmpty = false)
    (hdc2 : lookupDC dcs n2 = some dc2)
    (hip : dc2.ip = dc1.ip) (hnames : dc1.name ≠ dc2.name)
    (hc : cache.lookup dc1.ip = none)
    (hauth : get_token o dc1.ip dc1.username dc1.password = .ok tok) :
    (groupOutcome o dcs g1 cache).cache = cache ++ [(dc1.ip, tok)]
    ∧ authCallCount dc1.ip (groupOutcome o dcs g1 cache).out.events = 1
    ∧ (groupOutcome o dcs g2 (cache ++ [(dc1.ip, tok)])).out
        = devicesLoop o dc2.ip tok n2 g2.devices
    ∧ (groupOutcome o dcs g2 (cache ++ [(dc1.ip, tok)])).out.events.filter
        isAuthEvent = []
    ∧ (groupOutcome o dcs g2 (cache ++ [(dc1.ip, tok)])).out.events.map eventToken
        = List.replicate
            (groupOutcome o dcs g2 (cache ++ [(dc1.ip, tok)])).out.events.length
            (some tok)
    ∧ (groupOutcome o dcs g2 (cache ++ [(dc1.ip, tok)])).cache
        = cache ++ [(dc1.ip, tok)] := by
  have hg1 : groupOutcome o dcs g1 cache
      = ⟨⟨.authCall dc1.ip dc1.username dc1.password
            :: (devicesLoop o dc1.ip tok n1 g1.devices).events,
          (devicesLoop o dc1.ip tok n1 g1.devices).rows⟩,
         cache ++ [(dc1.ip, tok)], none⟩ := by
    simp [groupOutcome, h1, h1e, hdc1, hc, hauth]
  have hl2 : (cache ++ [(dc1.ip, tok)]).lookup dc2.ip = some tok := by
    rw [hip, lookup_append_of_none dc1.ip cache _ hc]
    simp [List.lookup]
  have hg2 : groupOutcome o dcs g2 (cache ++ [(dc1.ip, tok)])
      = ⟨devicesLoop o dc2.ip tok n2 g2.devices, cache ++ [(dc1.ip, tok)], none⟩ := by
    simp [groupOutcome, h2, h2e, hdc2, hl2]
  have htokens := devicesLoop_events_token o dc2.ip tok n2 g2.devices
  refine ⟨by rw [hg1], ?_, by rw [hg2], ?_, ?_, by rw [hg2]⟩
  · rw [hg1]
    simp only [authCallCount_cons]
    rw [authCallCount_zero_of_no_auth dc1.ip _
      (fun e he => (devicesLoop_events_token o dc1.ip tok n1 g1.devices e he).1)]
    simp [isAuthCallFor]
  · rw [hg2]
    exact List.filter_eq_nil_iff.mpr
      (fun e he hs => by rw [(htokens e he).1] at hs; cases hs)
  · rw [hg2]
    refine List.eq_replicate_iff.mpr ⟨by simp, ?_⟩
    intro b hb
    rcases List.mem_map.mp hb with ⟨e, he, rfl⟩
    exact (htokens e he).2

/-- Witness for C10: two controller entries `DCA`/`DCB` share IP 9.9.9.9
with different credentials; after `DCA`'s group authenticates as `u1` and
caches `tokA`, `DCB`'s group makes no authentication call and its device
lookup carries `tokA`. -/
theorem c10_cache_keyed_by_ip_witness :
    (groupOutcome oSharedIp dcsSharedIp gSharedA []).cache
        = [("9.9.9.9", Json.str "tokA")]
    ∧ authCallCount "9.9.9.9" (groupOutcome oSharedIp dcsSharedIp gSharedA []).out.events = 1
    ∧ (groupOutcome oSharedIp dcsSharedIp gSharedB
          [("9.9.9.9", Json.str "tokA")]).out
        = devicesLoop oSharedIp "9.9.9.9" (Json.str "tokA") "DCB" gSharedB.devices
    ∧ (groupOutcome oSharedIp dcsSharedIp gSharedB
          [("9.9.9.9", Json.str "tokA")]).out.events.filter isAuthEvent = []
    ∧ (groupOutcome oSharedIp dcsSharedIp gSharedB
          [("9.9.9.9", Json.str "tokA")]).out.events.map eventToken
        = List.replicate
            (groupOutcome oSharedIp dcsSharedIp gSharedB
              [("9.9.9.9", Json.str "tokA")]).out.events.length
            (some (Json.str "tokA"))
    ∧ (groupOutcome oSharedIp dcsSharedIp gSharedB
          [("9.9.9.9", Json.str "tokA")]).cache
        = [("9.9.9.9", Json.str "tokA")] :=
  c10_cache_keyed_by_ip oSharedIp dcsSharedIp gSharedA gSharedB "DCA" "DCB"
    ⟨"DCA", "9.9.9.9", "u1", "p1"⟩ ⟨"DCB", "9.9.9.9", "u2", "p2"⟩ []
    (Json.str "tokA") rfl rfl rfl rfl rfl rfl rfl (by decide) rfl rfl
